import Mathlib

/-!
Shallow embedding of the MuseQuill wizard UI state store
(src/ui/js/stores/wizard-store.js) together with the concept-form
component that calls into it (the component concatenated into
src/ui/js/steps/step-8-content.js, methods validateConcept and
submitConcept).

Modelling conventions:
* The Alpine store object becomes an explicit state record `WizardState`;
  every method becomes a pure function threading that record.
* JavaScript object lookup on `formData` is modelled as a function
  `String → Option String`; `none` stands for an absent key or a stored
  `null` value (both are falsy in every read the store performs, namely
  the truthiness tests in `hasSelection` and `canProceed`).
* The single network call an operation can make is modelled by passing the
  response as an explicit argument and returning the list of requests the
  operation issued, so that "no network call" is the empty request list.
* `StepResp.err` / `StartResp.err` cover both a resolved response with
  `success: false` (the code throws `new Error(response.message || ...)`)
  and a rejected fetch: both land in the same `catch` block, which calls
  `setError(error.message || fallback)`.
-/

namespace MuseQuill

/-- Model of the JavaScript String.prototype.trim the source calls:
drops leading and trailing whitespace. Written structurally over the char
list so that the kernel can evaluate it on concrete strings (the core
String.trim is extensionally the same but does not reduce). -/
def jsTrim (s : String) : String :=
  ⟨((s.data.dropWhile Char.isWhitespace).reverse.dropWhile
      Char.isWhitespace).reverse⟩

/-- One row of the `steps` table declared in the store. -/
structure StepEntry where
  number : Nat
  name : String
  shortName : String
  key : String
deriving Repr, DecidableEq

/-- The `steps` array of wizard-store.js, lines 16-26. -/
def steps : List StepEntry :=
  [ ⟨1, "Book Concept", "Concept", "concept"⟩,
    ⟨2, "Genre Selection", "Genre", "genre"⟩,
    ⟨3, "Target Audience", "Audience", "audience"⟩,
    ⟨4, "Writing Style", "Style", "style"⟩,
    ⟨5, "Book Length", "Length", "length"⟩,
    ⟨6, "Story Structure", "Structure", "structure"⟩,
    ⟨7, "World Building", "World", "world"⟩,
    ⟨8, "Content Preferences", "Content", "content"⟩,
    ⟨9, "Final Summary", "Summary", "summary"⟩ ]

/-- The constant `totalSteps: 9` field of the store (never reassigned). -/
def totalSteps : Nat := 9

/-- The `currentStepData` record kept by the store (already defaulted). -/
structure CurrentStepData where
  question : String
  options : List String
  llmReasoning : String
  canGoBack : Bool
  isFinalStep : Bool
deriving Repr, DecidableEq

/-- A step-data payload as it arrives from the backend; every field may be
absent (`setStepData` defaults each one). Options are kept opaque as ids. -/
structure RespStepData where
  question : Option String
  options : Option (List String)
  llm_reasoning : Option String
  can_go_back : Option Bool
  is_final_step : Option Bool
deriving Repr, DecidableEq

/-- A network request issued by the store, as recorded for the proofs:
either POST /wizard/start or POST /wizard/step/n with its JSON body. -/
inductive ApiRequest where
  | start (concept : String) (additional_notes : String)
  | step (stepNumber : Nat) (session_id : Option String)
      (selection : Option String) (additional_input : String)
deriving Repr, DecidableEq

/-- Outcome of the single network call of `startWizard`: `ok` carries
`response.data.session_id` and the optional `response.data.first_step`;
`err` carries the message reaching the catch block. -/
inductive StartResp where
  | ok (session_id : String) (first_step : Option RespStepData)
  | err (message : String)
deriving Repr, DecidableEq

/-- Outcome of the single network call of `processStep`. -/
inductive StepResp where
  | ok (data : RespStepData)
  | err (message : String)
deriving Repr, DecidableEq

/-- The mutable fields of the Alpine store object. `formData` is the JS
object as a total lookup function (none = absent key or null value). -/
structure WizardState where
  currentStep : Nat
  sessionId : Option String
  isLoading : Bool
  error : Option String
  formData : String → Option String
  currentStepData : CurrentStepData
  bookSummary : Option String

/-- The initial `formData` object: the ten declared keys hold the empty
string; any other key is absent. -/
def initFormData : String → Option String := fun k =>
  if k == "concept" || k == "additionalNotes" || k == "genre" ||
     k == "subgenre" || k == "audience" || k == "style" || k == "length" ||
     k == "structure" || k == "world" || k == "contentPreferences"
  then some "" else none

/-- The initial `currentStepData` object. -/
def initCurrentStepData : CurrentStepData :=
  { question := "", options := [], llmReasoning := "",
    canGoBack := false, isFinalStep := false }

/-- The store as declared at lines 7-52 of wizard-store.js. -/
def initState : WizardState :=
  { currentStep := 1, sessionId := none, isLoading := false, error := none,
    formData := initFormData, currentStepData := initCurrentStepData,
    bookSummary := none }

/-- setLoading(loading). -/
def setLoading (s : WizardState) (loading : Bool) : WizardState :=
  { s with isLoading := loading }

/-- setError(error): stores the message and clears the loading flag. -/
def setError (s : WizardState) (message : String) : WizardState :=
  { s with error := some message, isLoading := false }

/-- clearError(). -/
def clearError (s : WizardState) : WizardState :=
  { s with error := none }

/-- setCurrentStep(step): only accepts steps in [1, totalSteps]. -/
def setCurrentStep (s : WizardState) (step : Nat) : WizardState :=
  if 1 ≤ step ∧ step ≤ totalSteps then { s with currentStep := step } else s

/-- setSessionId(sessionId). -/
def setSessionId (s : WizardState) (sessionId : String) : WizardState :=
  { s with sessionId := some sessionId }

/-- Assignment `this.formData[key] = value`; the value may be null
(`none`), exactly as when processStep stores a null selection. -/
def updateFormData (s : WizardState) (key : String) (value : Option String) :
    WizardState :=
  { s with formData := fun k => if k == key then value else s.formData k }

/-- setStepData(stepData): each field defaulted as in the source. -/
def setStepData (s : WizardState) (stepData : RespStepData) : WizardState :=
  { s with currentStepData :=
    { question := stepData.question.getD ""
      options := stepData.options.getD []
      llmReasoning := stepData.llm_reasoning.getD ""
      canGoBack := stepData.can_go_back.getD false
      isFinalStep := stepData.is_final_step.getD false } }

/-- getStepByNumber(number). -/
def getStepByNumber (number : Nat) : Option StepEntry :=
  steps.find? (fun st => st.number == number)

/-- getCurrentStepKey(): the key of the step record matching currentStep,
null when there is none. -/
def getCurrentStepKey (s : WizardState) : Option String :=
  (getStepByNumber s.currentStep).map (fun st => st.key)

/-- hasSelection(stepKey): the JS truthiness test
`formData[stepKey] && formData[stepKey].trim() !== ""`. -/
def hasSelection (formData : String → Option String) (stepKey : String) :
    Bool :=
  match formData stepKey with
  | none => false
  | some v => v != "" && jsTrim v != ""

/-- canProceed(), lines 105-119 of wizard-store.js. -/
def canProceed (s : WizardState) : Bool :=
  if s.currentStep == 1 then
    match s.formData "concept" with
    | none => false
    | some c => c != "" && decide (10 ≤ (jsTrim c).length)
  else
    match getCurrentStepKey s with
    | none => false
    | some currentStepKey =>
      if currentStepKey == "content" then true
      else hasSelection s.formData currentStepKey

/-- startWizard(concept, additionalNotes): result flag, ending state, and
the requests issued (always exactly one: the code validates nothing and
guards nothing before calling the backend). -/
def startWizard (resp : StartResp) (s : WizardState)
    (concept : String) (additionalNotes : String) :
    Bool × WizardState × List ApiRequest :=
  let s1 := clearError (setLoading s true)
  let req := ApiRequest.start concept additionalNotes
  match resp with
  | .ok session_id first_step =>
    let s2 := setSessionId s1 session_id
    let s3 := updateFormData s2 "concept" (some concept)
    let s4 := updateFormData s3 "additionalNotes" (some additionalNotes)
    let s5 := match first_step with
      | some fs => setStepData s4 fs
      | none => s4
    let s6 := setCurrentStep s5 2
    (true, setLoading s6 false, [req])
  | .err message =>
    let m := if message == "" then "Failed to start wizard. Please try again."
             else message
    (false, setLoading (setError s1 m) false, [req])

/-- processStep(stepNumber, selection, additionalInput): guards on a
missing sessionId before any network interaction; on success stores the
step data and then writes formData under the key of the CURRENT step (not
of the stepNumber argument); on failure only error/loading change. -/
def processStep (resp : StepResp) (s : WizardState) (stepNumber : Nat)
    (selection : Option String) (additionalInput : String) :
    Bool × WizardState × List ApiRequest :=
  match s.sessionId with
  | none => (false, setError s "No active session. Please restart the wizard.", [])
  | some sid =>
    let s1 := clearError (setLoading s true)
    let req := ApiRequest.step stepNumber (some sid) selection additionalInput
    match resp with
    | .ok data =>
      let s2 := setStepData s1 data
      let s3 := match getCurrentStepKey s2 with
        | none => s2
        | some stepKey =>
          if stepKey == "content" then
            updateFormData s2 "contentPreferences" (some additionalInput)
          else
            updateFormData s2 stepKey selection
      (true, setLoading s3 false, [req])
    | .err message =>
      let m := if message == "" then "Failed to process step. Please try again."
               else message
      (false, setLoading (setError s1 m) false, [req])

/-- loadStepData(): the source is a stub that just returns true and makes
no call at all (lines 274-277 of wizard-store.js). -/
def loadStepData (s : WizardState) : Bool × WizardState × List ApiRequest :=
  (true, s, [])

/-- goToNext(): gated by canProceed; past step 1 it awaits loadStepData. -/
def goToNext (s : WizardState) : Bool × WizardState × List ApiRequest :=
  if !canProceed s then (false, s, [])
  else if s.currentStep < totalSteps then
    let s1 := setCurrentStep s (s.currentStep + 1)
    if 1 < s1.currentStep then
      let r := loadStepData s1
      (true, r.2.1, r.2.2)
    else (true, s1, [])
  else (false, s, [])

/-- goToPrevious(). -/
def goToPrevious (s : WizardState) : Bool × WizardState :=
  if 1 < s.currentStep then (true, setCurrentStep s (s.currentStep - 1))
  else (false, s)

/-! Concept-form component (the step-1 component concatenated into
src/ui/js/steps/step-8-content.js): local fields and the methods
validateConcept and submitConcept. Only the fields those two methods read
or write are modelled; the 3-second timer that later re-hides the
analysis panel is outside the state the claims mention. -/

/-- Local state of the concept-form component. -/
structure ConceptForm where
  concept : String
  additionalNotes : String
  validationErrors : List String
  isSubmitting : Bool
  showAnalysis : Bool
deriving Repr, DecidableEq

/-- validateConcept(): clears validationErrors, then pushes the first
failing message and returns false, or returns true. -/
def validateConcept (f : ConceptForm) : Bool × ConceptForm :=
  let f0 := { f with validationErrors := [] }
  if jsTrim f.concept == "" then
    (false, { f0 with validationErrors := ["Please enter your book concept"] })
  else if (jsTrim f.concept).length < 10 then
    (false, { f0 with validationErrors := ["Please provide at least 10 characters"] })
  else if 1000 < (jsTrim f.concept).length then
    (false, { f0 with validationErrors := ["Please keep your concept under 1000 characters"] })
  else if 500 < f.additionalNotes.length then
    (false, { f0 with validationErrors := ["Additional notes must be under 500 characters"] })
  else (true, f0)

/-- submitConcept(): returns early when validateConcept fails (no store
interaction, no network call); otherwise delegates to
startWizard(concept.trim(), additionalNotes.trim()). -/
def submitConcept (resp : StartResp) (f : ConceptForm) (s : WizardState) :
    ConceptForm × WizardState × List ApiRequest :=
  match validateConcept f with
  | (false, f1) => (f1, s, [])
  | (true, f1) =>
    let f2 := { f1 with isSubmitting := true }
    let r := startWizard resp s (jsTrim f.concept) (jsTrim f.additionalNotes)
    let f3 := if r.1 then { f2 with showAnalysis := true, validationErrors := [] }
              else f2
    ({ f3 with isSubmitting := false }, r.2.1, r.2.2)

/-! Navigation sequences, for the step-bounds invariant: a user session is
a finite list of advance (goToNext) / retreat (goToPrevious) calls applied
from the initial state. -/

/-- One user navigation action. -/
inductive NavOp where
  | next
  | prev
deriving Repr, DecidableEq

/-- The state after one navigation call (return values discarded). -/
def navStep (s : WizardState) : NavOp → WizardState
  | .next => (goToNext s).2.1
  | .prev => (goToPrevious s).2

/-- The state after a finite sequence of navigation calls. -/
def runNav : List NavOp → WizardState → WizardState
  | [], s => s
  | op :: ops, s => runNav ops (navStep s op)

/-- The step-bounds invariant of spec property P1. -/
def stepInv (s : WizardState) : Prop :=
  1 ≤ s.currentStep ∧ s.currentStep ≤ totalSteps

instance (s : WizardState) : Decidable (stepInv s) := by
  unfold stepInv; infer_instance

/-- An empty backend step payload (every optional field absent). -/
def emptyStepData : RespStepData :=
  { question := none, options := none, llm_reasoning := none,
    can_go_back := none, is_final_step := none }

/-- A state with a session and a call already in flight (isLoading). -/
def inFlightState : WizardState :=
  { initState with isLoading := true, sessionId := some "s1", currentStep := 2 }

/-- A session at step 2 whose genre slot already holds a real choice. -/
def prefilledState : WizardState :=
  { updateFormData initState "genre" (some "fantasy") with
      sessionId := some "s1", currentStep := 2 }

/-- A session sitting on step 8, the content-preferences step. -/
def contentStepState : WizardState :=
  { initState with currentStep := 8 }

/-- A session sitting on step 3, the audience step. -/
def audienceStepState : WizardState :=
  { initState with sessionId := some "s1", currentStep := 3 }

/-- The concept form holding the five-character concept of spec example 2. -/
def shortConceptForm : ConceptForm :=
  { concept := "short", additionalNotes := "", validationErrors := [],
    isSubmitting := false, showAnalysis := false }

/-! Helper lemmas for the step-bounds invariant. -/

theorem stepInv_setCurrentStep (s : WizardState) (n : Nat) (h : stepInv s) :
    stepInv (setCurrentStep s n) := by
  unfold setCurrentStep
  split
  case isTrue hc => exact hc
  case isFalse => exact h

theorem stepInv_goToNext (s : WizardState) (h : stepInv s) :
    stepInv (goToNext s).2.1 := by
  unfold goToNext loadStepData
  split
  · exact h
  · split
    · dsimp only
      split
      · exact stepInv_setCurrentStep s (s.currentStep + 1) h
      · exact stepInv_setCurrentStep s (s.currentStep + 1) h
    · exact h

theorem stepInv_goToPrevious (s : WizardState) (h : stepInv s) :
    stepInv (goToPrevious s).2 := by
  unfold goToPrevious
  split
  · exact stepInv_setCurrentStep s (s.currentStep - 1) h
  · exact h

theorem runNav_inv (ops : List NavOp) :
    ∀ s : WizardState, stepInv s → stepInv (runNav ops s) := by
  induction ops with
  | nil => intro s h; exact h
  | cons op ops ih =>
    intro s h
    cases op with
    | next => exact ih _ (stepInv_goToNext s h)
    | prev => exact ih _ (stepInv_goToPrevious s h)

/-- Claim C1: starting from the initial state, after every finite sequence
of advance (goToNext) and retreat (goToPrevious) calls, the invariant
1 ≤ currentStep ≤ totalSteps (with totalSteps = 9) holds. -/
theorem claim_C1_step_bounds (ops : List NavOp) :
    1 ≤ (runNav ops initState).currentStep ∧
      (runNav ops initState).currentStep ≤ totalSteps :=
  runNav_inv ops initState (by decide)

/-- Claim C2: in every state where canProceed() is false and currentStep
lies in 1..7, goToNext returns false and leaves the state (in particular
currentStep) unchanged. -/
theorem claim_C2_gating (s : WizardState) (hc : canProceed s = false)
    (_h1 : 1 ≤ s.currentStep) (_h7 : s.currentStep ≤ 7) :
    (goToNext s).1 = false ∧ (goToNext s).2.1 = s := by
  simp [goToNext, hc]

theorem claim_C2_gating_witness :
    canProceed initState = false ∧ 1 ≤ initState.currentStep ∧
      initState.currentStep ≤ 7 ∧
      ((goToNext initState).1 = false ∧ (goToNext initState).2.1 = initState) :=
  ⟨by decide, by decide, by decide,
    claim_C2_gating initState (by decide) (by decide) (by decide)⟩

/-- Claim C3: with sessionId null, processStep returns false and issues no
network request, whatever the response, step number, selection and extra
input would have been. -/
theorem claim_C3_session_guard (resp : StepResp) (s : WizardState)
    (stepNumber : Nat) (selection : Option String) (extra : String)
    (h : s.sessionId = none) :
    (processStep resp s stepNumber selection extra).1 = false ∧
      (processStep resp s stepNumber selection extra).2.2 = [] := by
  simp [processStep, h]

theorem claim_C3_session_guard_witness :
    initState.sessionId = none ∧
      ((processStep (.err "boom") initState 2 none "").1 = false ∧
        (processStep (.err "boom") initState 2 none "").2.2 = []) :=
  ⟨rfl, claim_C3_session_guard (.err "boom") initState 2 none "" rfl⟩

/-- Claim C4: whenever the backend call of processStep fails (network
error or unsuccessful response, both reaching the catch block), the call
returns false and both formData and currentStepData are exactly the values
they had before the call. -/
theorem claim_C4_no_partial_mutation (message : String) (s : WizardState)
    (stepNumber : Nat) (selection : Option String) (extra : String) :
    (processStep (.err message) s stepNumber selection extra).1 = false ∧
      (processStep (.err message) s stepNumber selection extra).2.1.formData
        = s.formData ∧
      (processStep (.err message) s stepNumber selection
          extra).2.1.currentStepData
        = s.currentStepData := by
  unfold processStep
  cases h : s.sessionId <;>
    simp [setError, setLoading, clearError]

/-- Claim C5 counterexample: with a call already in flight (isLoading =
true) there is no rejection: at this concrete state a second processStep
returns true and overwrites formData.genre, instead of returning immediate
failure and leaving the data alone. -/
theorem claim_C5_counterexample :
    inFlightState.isLoading = true ∧
      (processStep (.ok emptyStepData) inFlightState 2 (some "fantasy") "").1
        = true ∧
      (processStep (.ok emptyStepData) inFlightState 2
          (some "fantasy") "").2.1.formData "genre"
        = some "fantasy" := by
  refine ⟨rfl, rfl, rfl⟩

/-- Claim C5 (amended): the store has no in-flight guard at all: both
startWizard and processStep behave identically whatever the incoming
isLoading flag, rather than rejecting a second call issued while one is
loading. -/
theorem claim_C5_amended (s : WizardState) (b : Bool)
    (respStart : StartResp) (resp : StepResp) (concept notes : String)
    (stepNumber : Nat) (selection : Option String) (extra : String) :
    startWizard respStart { s with isLoading := b } concept notes
        = startWizard respStart { s with isLoading := false } concept notes ∧
      processStep resp { s with isLoading := b } stepNumber selection extra
        = processStep resp { s with isLoading := false } stepNumber selection
            extra := by
  cases s with
  | mk cur sid il er fd csd bs =>
    constructor
    · cases respStart <;> rfl
    · cases sid <;> cases resp <;> rfl

/-- Claim C6 counterexample: at step 9 with the initial formData,
canProceed() returns false, not true. -/
theorem claim_C6_counterexample :
    canProceed { initState with currentStep := 9 } = false := by
  decide

/-- Claim C6 (amended): at step 9 canProceed() is not unconditionally
true; it returns hasSelection(formData, "summary"), which is false unless
a non-blank value was stored under the undeclared key "summary". -/
theorem claim_C6_amended (s : WizardState) (h : s.currentStep = 9) :
    canProceed s = hasSelection s.formData "summary" := by
  unfold canProceed getCurrentStepKey getStepByNumber
  rw [h]
  rfl

theorem claim_C6_amended_witness :
    ({ initState with currentStep := 9 } : WizardState).currentStep = 9 ∧
      canProceed { initState with currentStep := 9 }
        = hasSelection
            ({ initState with currentStep := 9 } : WizardState).formData
            "summary" :=
  ⟨rfl, claim_C6_amended { initState with currentStep := 9 } rfl⟩

/-- Claim C7 counterexample: a successful prefetch is not mutation-free:
at this concrete state (genre already "fantasy"), processStep with a null
selection succeeds and changes formData.genre from "fantasy" to null. -/
theorem claim_C7_counterexample :
    prefilledState.formData "genre" = some "fantasy" ∧
      (processStep (.ok emptyStepData) prefilledState 2 none "").1 = true ∧
      (processStep (.ok emptyStepData) prefilledState 2
          none "").2.1.formData "genre"
        = none := by
  refine ⟨rfl, rfl, rfl⟩

/-- Claim C7 (amended): a successful processStep with selection = null is
only mutation-free on the keys other than the current one: when the
current step key k exists and is not "content", it writes null into
formData[k]. -/
theorem claim_C7_amended (d : RespStepData) (s : WizardState) (sid : String)
    (stepNumber : Nat) (extra : String) (k : String)
    (hs : s.sessionId = some sid) (hk : getCurrentStepKey s = some k)
    (hc : k ≠ "content") :
    (processStep (.ok d) s stepNumber none extra).1 = true ∧
      (processStep (.ok d) s stepNumber none extra).2.1.formData
        = fun q => if q == k then none else s.formData q := by
  have hk2 : getCurrentStepKey
      (setStepData (clearError (setLoading s true)) d) = some k := hk
  have hcb : (k == "content") = false := by
    simpa using hc
  unfold processStep
  rw [hs]
  dsimp only
  rw [hk2]
  simp only [hcb, Bool.false_eq_true, if_false]
  exact ⟨trivial, rfl⟩

theorem claim_C7_amended_witness :
    prefilledState.sessionId = some "s1" ∧
      getCurrentStepKey prefilledState = some "genre" ∧
      ("genre" : String) ≠ "content" ∧
      ((processStep (.ok emptyStepData) prefilledState 7 none "").1 = true ∧
        (processStep (.ok emptyStepData) prefilledState 7
            none "").2.1.formData
          = fun q => if q == "genre" then none else prefilledState.formData q) :=
  ⟨rfl, rfl, by decide,
    claim_C7_amended emptyStepData prefilledState "s1" 7 "" "genre" rfl rfl
      (by decide)⟩

/-- Claim C8 counterexample: at this concrete state (step 8, which can
always proceed) goToNext succeeds and moves to step 9 ( > 1 ), yet issues
no submitStep request at all — the promised metadata prefetch for the new
step never happens (currentStepData also stays as it was). -/
theorem claim_C8_counterexample :
    canProceed contentStepState = true ∧
      (goToNext contentStepState).1 = true ∧
      (goToNext contentStepState).2.1.currentStep = 9 ∧
      (goToNext contentStepState).2.2 = [] ∧
      (goToNext contentStepState).2.1.currentStepData
        = contentStepState.currentStepData := by
  refine ⟨rfl, rfl, rfl, rfl, rfl⟩

/-- Claim C8 (amended): a successful goToNext triggers no prefetch:
loadStepData is a stub that returns true without any backend call, so the
result is exactly the old state with currentStep incremented, an empty
request list, and in particular unchanged step metadata. -/
theorem claim_C8_amended (s : WizardState) (hc : canProceed s = true)
    (hlt : s.currentStep < totalSteps) :
    goToNext s = (true, { s with currentStep := s.currentStep + 1 }, []) := by
  have hset : setCurrentStep s (s.currentStep + 1)
      = { s with currentStep := s.currentStep + 1 } := by
    unfold setCurrentStep
    rw [if_pos]
    exact ⟨Nat.succ_le_succ (Nat.zero_le _), hlt⟩
  unfold goToNext loadStepData
  rw [hc]
  simp only [Bool.not_true, Bool.false_eq_true, if_false, if_pos hlt, hset]
  split <;> rfl

theorem claim_C8_amended_witness :
    canProceed contentStepState = true ∧
      contentStepState.currentStep < totalSteps ∧
      goToNext contentStepState
        = (true,
            { contentStepState with
                currentStep := contentStepState.currentStep + 1 }, []) :=
  ⟨rfl, by decide, claim_C8_amended contentStepState rfl (by decide)⟩

/-- Claim C9 counterexample: startWizard performs no local length check:
called directly with the five-character concept "short" it does issue the
network request (and on failure records the error), instead of being
rejected locally with no call and an untouched state. -/
theorem claim_C9_counterexample :
    (jsTrim "short").length < 10 ∧
      (startWizard (.err "network down") initState "short" "").2.2
        = [ApiRequest.start "short" ""] ∧
      (startWizard (.err "network down") initState "short" "").2.1.error
        = some "network down" := by
  refine ⟨by decide, rfl, rfl⟩

/-- Claim C9 (amended): the local rejection of a short concept lives in
the concept-form component, not in startWizard: when the trimmed concept
has fewer than 10 characters, submitConcept fails validateConcept and
returns with the wizard store untouched and no network request issued. -/
theorem claim_C9_amended (resp : StartResp) (f : ConceptForm)
    (s : WizardState) (h : (jsTrim f.concept).length < 10) :
    (submitConcept resp f s).2.1 = s ∧ (submitConcept resp f s).2.2 = [] := by
  by_cases he : jsTrim f.concept = ""
  · have heb : (jsTrim f.concept == "") = true := by simpa using he
    simp [submitConcept, validateConcept, heb]
  · have heb : (jsTrim f.concept == "") = false := by simpa using he
    simp [submitConcept, validateConcept, heb, h]

theorem claim_C9_amended_witness :
    (jsTrim shortConceptForm.concept).length < 10 ∧
      ((submitConcept (.err "network down") shortConceptForm initState).2.1
          = initState ∧
        (submitConcept (.err "network down") shortConceptForm initState).2.2
          = []) :=
  ⟨by decide,
    claim_C9_amended (.err "network down") shortConceptForm initState
      (by decide)⟩

/-- Claim C10: a successful processStep writes formData under the key of
the CURRENT step (getCurrentStepKey), not of the stepNumber argument: the
extra input goes to contentPreferences when that key is "content",
otherwise the selection goes under the current key; the stepNumber
argument does not appear in the resulting formData. -/
theorem claim_C10_formdata_key (d : RespStepData) (s : WizardState)
    (sid : String) (stepNumber : Nat) (selection : Option String)
    (extra : String) (k : String)
    (hs : s.sessionId = some sid) (hk : getCurrentStepKey s = some k) :
    (processStep (.ok d) s stepNumber selection extra).1 = true ∧
      (processStep (.ok d) s stepNumber selection extra).2.1.formData
        = (if k == "content" then
            fun q => if q == "contentPreferences" then some extra
                     else s.formData q
           else
            fun q => if q == k then selection else s.formData q) := by
  have hk2 : getCurrentStepKey
      (setStepData (clearError (setLoading s true)) d) = some k := hk
  unfold processStep
  rw [hs]
  dsimp only
  rw [hk2]
  refine ⟨rfl, ?_⟩
  by_cases hcb : (k == "content") = true
  · simp only [hcb, if_true]
    rfl
  · simp only [eq_false_of_ne_true hcb, Bool.false_eq_true, if_false]
    rfl

theorem claim_C10_formdata_key_witness :
    audienceStepState.sessionId = some "s1" ∧
      getCurrentStepKey audienceStepState = some "audience" ∧
      ((processStep (.ok emptyStepData) audienceStepState 7
            (some "adult") "").1 = true ∧
        (processStep (.ok emptyStepData) audienceStepState 7
            (some "adult") "").2.1.formData
          = (if ("audience" : String) == "content" then
              fun q => if q == "contentPreferences" then some ""
                       else audienceStepState.formData q
             else
              fun q => if q == "audience" then some "adult"
                       else audienceStepState.formData q)) :=
  ⟨rfl, rfl,
    claim_C10_formdata_key emptyStepData audienceStepState "s1" 7
      (some "adult") "" "audience" rfl rfl⟩

end MuseQuill
